import Mathlib

/-!
Verification of the container-stats collection and normalization core of
the `whale` CLI (package `internal/docker`, file `stats.go`, plus the
watch loop in `cmd/whale/main.go`).

Modelling conventions:
* Go `uint64` fields are `Nat`; where the source performs `uint64`
  arithmetic that can wrap (the CPU-delta subtractions and the running
  byte sums) we apply the wrap explicitly with `% 2^64`.
* Go `float64` values are modelled as exact rationals (`ℚ`): the claims
  are about the arithmetic formulas, not IEEE rounding.
* The Docker daemon is an external collaborator; the lister result and
  the per-container stats fetch (HTTP call + JSON decode) are passed in
  as explicit data (`Except`/`Option`), mirroring §6 of the design.
-/

namespace Whale

/-- The modulus of Go `uint64` arithmetic, i.e. `2^64`. -/
def u64Mod : Nat := 2 ^ 64

/-- Go `uint64` subtraction `a - b` (wraps modulo `2^64`);
faithful for `a b < 2^64`. -/
def u64sub (a b : Nat) : Nat := (a + u64Mod - b % u64Mod) % u64Mod

/-- Go `uint64` addition `a + b` (wraps modulo `2^64`). -/
def u64add (a b : Nat) : Nat := (a + b) % u64Mod

/-- Mirror of Docker's `container.CPUUsage`: the fields read by
`computeCPUPercent`. -/
structure CPUUsage where
  totalUsage : Nat
  percpuUsage : List Nat
  deriving DecidableEq

/-- Mirror of Docker's `container.CPUStats`: the fields read by
`computeCPUPercent`. -/
structure CPUStats where
  cpuUsage : CPUUsage
  systemUsage : Nat
  onlineCPUs : Nat
  deriving DecidableEq

/-- Mirror of Docker's `container.MemoryStats`: the fields read by
`computeMemory`. -/
structure MemoryStats where
  usage : Nat
  limit : Nat
  deriving DecidableEq

/-- Mirror of Docker's `container.NetworkStats`: per-interface byte
counters read by `computeNetwork`. -/
structure NetworkStats where
  rxBytes : Nat
  txBytes : Nat
  deriving DecidableEq

/-- Mirror of Docker's `container.BlkioStatEntry`: an operation label and
a byte count, read by `computeBlockIO`. -/
structure BlkioStatEntry where
  op : String
  value : Nat
  deriving DecidableEq

/-- Mirror of Docker's `container.PidsStats`. -/
structure PidsStats where
  current : Nat
  deriving DecidableEq

/-- Mirror of Docker's `container.Stats`: one decoded stats sample.
`networks` carries the map values of `s.Networks` in iteration order and
`ioServiceBytesRecursive` the entries of
`s.BlkioStats.IoServiceBytesRecursive`. -/
structure Stats where
  cpuStats : CPUStats
  preCPUStats : CPUStats
  memoryStats : MemoryStats
  networks : List NetworkStats
  ioServiceBytesRecursive : List BlkioStatEntry
  pidsStats : PidsStats
  deriving DecidableEq

/-- The `cpuDelta` value computed by `computeCPUPercent`:
`float64(s.CPUStats.CPUUsage.TotalUsage - s.PreCPUStats.CPUUsage.TotalUsage)`,
a `uint64` subtraction (wrapping) then converted to a number. -/
def cpuDelta (s : Stats) : ℚ :=
  (u64sub s.cpuStats.cpuUsage.totalUsage s.preCPUStats.cpuUsage.totalUsage : ℚ)

/-- The `systemDelta` value computed by `computeCPUPercent`:
`float64(s.CPUStats.SystemUsage - s.PreCPUStats.SystemUsage)`. -/
def systemDelta (s : Stats) : ℚ :=
  (u64sub s.cpuStats.systemUsage s.preCPUStats.systemUsage : ℚ)

/-- Embedding of `computeCPUPercent` (stats.go:141-159). -/
def computeCPUPercent (s : Stats) : ℚ :=
  let cd := cpuDelta s
  let sd := systemDelta s
  if cd ≤ 0 ∨ sd ≤ 0 then 0
  else
    let numCPUs : ℚ :=
      if s.cpuStats.onlineCPUs > 0 then (s.cpuStats.onlineCPUs : ℚ)
      else if s.cpuStats.cpuUsage.percpuUsage.length > 0 then
        (s.cpuStats.cpuUsage.percpuUsage.length : ℚ)
      else 1
    (cd / sd) * numCPUs * 100

/-- Embedding of `computeMemory` (stats.go:161-171); returns
`(usage, limit, percent)`. -/
def computeMemory (s : Stats) : Nat × Nat × ℚ :=
  let usage := s.memoryStats.usage
  let limit := s.memoryStats.limit
  if limit = 0 ∨ usage = 0 then (usage, limit, 0)
  else (usage, limit, ((usage : ℚ) / (limit : ℚ)) * 100)

/-- The loop body of `computeNetwork`: `rx += nw.RxBytes`,
`tx += nw.TxBytes` in `uint64` arithmetic. -/
def netStep (acc : Nat × Nat) (nw : NetworkStats) : Nat × Nat :=
  (u64add acc.1 nw.rxBytes, u64add acc.2 nw.txBytes)

/-- Embedding of `computeNetwork` (stats.go:173-180): accumulate the two
byte counters over every interface. -/
def computeNetwork (s : Stats) : Nat × Nat :=
  s.networks.foldl netStep (0, 0)

/-- Embedding of `strings.ToLower` restricted to what the operation labels use:
character-wise ASCII lowering. -/
def strToLower (s : String) : String := ⟨s.data.map Char.toLower⟩

/-- The loop body of `computeBlockIO`: lower-case the operation label,
add the value to the read or write bucket, ignore other labels. -/
def blkStep (acc : Nat × Nat) (e : BlkioStatEntry) : Nat × Nat :=
  let op := strToLower e.op
  if op = "read" then (u64add acc.1 e.value, acc.2)
  else if op = "write" then (acc.1, u64add acc.2 e.value)
  else acc

/-- Embedding of `computeBlockIO` (stats.go:182-194). -/
def computeBlockIo (s : Stats) : Nat × Nat :=
  s.ioServiceBytesRecursive.foldl blkStep (0, 0)

/-- Spec-side reading of `computeNetwork`: the plain sum of received
bytes across all interfaces. -/
def rxSum (l : List NetworkStats) : Nat := (l.map NetworkStats.rxBytes).sum

/-- Spec-side reading of `computeNetwork`: the plain sum of transmitted
bytes across all interfaces. -/
def txSum (l : List NetworkStats) : Nat := (l.map NetworkStats.txBytes).sum

/-- The partition of block-I/O entries whose lower-cased label is
exactly `read`. -/
def readEntries (l : List BlkioStatEntry) : List BlkioStatEntry :=
  l.filter (fun e => strToLower e.op == "read")

/-- The partition of block-I/O entries whose lower-cased label is
exactly `write`. -/
def writeEntries (l : List BlkioStatEntry) : List BlkioStatEntry :=
  l.filter (fun e => strToLower e.op == "write")

/-- Spec-side reading of `computeBlockIO`: the sum of values in the
read partition. -/
def readSum (l : List BlkioStatEntry) : Nat :=
  ((readEntries l).map BlkioStatEntry.value).sum

/-- Spec-side reading of `computeBlockIO`: the sum of values in the
write partition. -/
def writeSum (l : List BlkioStatEntry) : Nat :=
  ((writeEntries l).map BlkioStatEntry.value).sum

/-- Mirror of `ContainerSnapshot` (stats.go:16-29). Names are lists of
characters so the single-slash trimming is structural. -/
structure ContainerSnapshot where
  id : String
  name : List Char
  status : String
  cpuPercent : ℚ
  memUsage : Nat
  memLimit : Nat
  memPercent : ℚ
  netRx : Nat
  netTx : Nat
  blockRead : Nat
  blockWrite : Nat
  pids : Nat
  deriving DecidableEq

/-- The fields of a Docker list entry (`types.Container`) that
`CollectSnapshots` reads: id, the name list, the brief lifecycle state
and the human status string. -/
structure ContainerInfo where
  id : String
  names : List (List Char)
  state : String
  status : String
  deriving DecidableEq

/-- Embedding of the `strings.TrimPrefix(n, "/")` call of `deriveName`: drop one
leading slash when present, otherwise return the string unchanged. -/
def trimSlash (n : List Char) : List Char :=
  match n with
  | [] => []
  | c :: rest => if c = '/' then rest else c :: rest

/-- Embedding of `deriveName` (stats.go:82-88). -/
def deriveName (names : List (List Char)) : List Char :=
  match names with
  | [] => []
  | n :: _ => trimSlash n

/-- Embedding of `deriveStatus` (stats.go:90-100). -/
def deriveStatus (state status : String) : String :=
  if status ≠ "" then status
  else if state ≠ "" then state
  else ("")

/-- The snapshot pre-filled by the listing loop of `CollectSnapshots`
(stats.go:43-49): identity and derived status, all metric fields at
their zero values. -/
def initialSnapshot (c : ContainerInfo) : ContainerSnapshot :=
  { id := c.id
    name := deriveName c.names
    status := deriveStatus c.state c.status
    cpuPercent := 0
    memUsage := 0
    memLimit := 0
    memPercent := 0
    netRx := 0
    netTx := 0
    blockRead := 0
    blockWrite := 0
    pids := 0 }

/-- The tail of `populateStats` (stats.go:118-138) after a successful
fetch and decode: write every metric field of the snapshot from the
decoded sample. -/
def populateStats (snap : ContainerSnapshot) (sj : Stats) : ContainerSnapshot :=
  let mem := computeMemory sj
  let net := computeNetwork sj
  let blk := computeBlockIo sj
  { snap with
    cpuPercent := computeCPUPercent sj
    memUsage := mem.1
    memLimit := mem.2.1
    memPercent := mem.2.2
    netRx := net.1
    netTx := net.2
    blockRead := blk.1
    blockWrite := blk.2
    pids := if sj.pidsStats.current ≠ 0 then sj.pidsStats.current else 0 }

/-- A fetch source: `ContainerStats` + JSON decode for one container id,
`none` standing for any failure (timeout, transport, malformed body). -/
abbrev FetchSource : Type := String → Option Stats

/-- One worker of `CollectSnapshots` (stats.go:64-77): fetch and
populate the snapshot's own slot; on failure force the status to
`ERROR` and leave every metric field as it was. -/
def fetchWorker (fetch : FetchSource) (snap : ContainerSnapshot) :
    ContainerSnapshot :=
  match fetch snap.id with
  | some sj => populateStats snap sj
  | none => { snap with status := "ERROR" }

/-- The content of slot `i` of the `snapshots` arena after `wg.Wait()`:
the pre-filled snapshot, run through the fetch worker exactly when the
lister reported the container `running` (stats.go:50-52, 64-77). -/
def assembleSlot (fetch : FetchSource) (c : ContainerInfo) : ContainerSnapshot :=
  let snap := initialSnapshot c
  if c.state = "running" then fetchWorker fetch snap else snap

/-- Embedding of `CollectSnapshots` (stats.go:33-80): propagate a lister
failure; otherwise build one snapshot per listed container in the
lister's order, submitting exactly the `running` ones to the fetcher.
Each worker writes only its own pre-allocated slot, so the parallel
fan-out is the slot-wise map below. -/
def collectSnapshots (listResult : Except String (List ContainerInfo))
    (fetch : FetchSource) : Except String (List ContainerSnapshot) :=
  match listResult with
  | .error e => .error e
  | .ok containers => .ok (containers.map (assembleSlot fetch))

/-- The semaphore capacity chosen by `CollectSnapshots`
(stats.go:58-61): `concurrency := 16`, lowered to the number of running
containers when that is smaller. -/
def concurrencyBound (numRunning : Nat) : Nat :=
  if numRunning < 16 then numRunning else 16

/-- One transition of the counting admission gate
(`sem := make(chan struct{}, cap)`, stats.go:62-77): `acquire` is the
blocking send `sem <- struct{}{}`, enabled only while fewer than `cap`
tokens are held; `release` is `<-sem` when a worker finishes. The state
is the number of fetches currently in flight. -/
inductive SemStep (cap : Nat) : Nat → Nat → Prop
  | acquire (n : Nat) : n < cap → SemStep cap n (n + 1)
  | release (n : Nat) : 0 < n → SemStep cap (n + 1) n

/-- Gate states reachable from an empty gate. -/
def SemReachable (cap : Nat) (n : Nat) : Prop :=
  Relation.ReflTransGen (SemStep cap) 0 n

/-- Outcome of the blocking `select` at the bottom of the watch loop
(main.go:147-152): either the ticker fires or the parent context is
done. -/
inductive SelectOutcome where
  | tick
  | cancel
  deriving DecidableEq

/-- Result of a (truncated) run of the watch loop. -/
inductive WatchResult where
  | running
  | stopped
  | failed (e : String)
  deriving DecidableEq

/-- Embedding of the loop body of `watchContainers` (main.go:132-154),
indexed by the cycle number `k`. `collect k` is the outcome of the
`k`-th `CollectSnapshots` call and `sel k` the outcome of the `k`-th
`select`; `fuel` truncates the unbounded loop, `.running` meaning the
loop was still going when the observation window closed. A cycle's
error returns immediately; otherwise the loop renders (irrelevant
here), then blocks on the select: a tick continues, cancellation
returns without error. -/
def watchContainers (collect : Nat → Except String (List ContainerSnapshot))
    (sel : Nat → SelectOutcome) : Nat → Nat → WatchResult
  | _, 0 => .running
  | k, fuel + 1 =>
      match collect k with
      | .error e => .failed e
      | .ok _ =>
          match sel k with
          | .cancel => .stopped
          | .tick => watchContainers collect sel (k + 1) fuel

/-! ### Concrete samples used to exercise the theorems -/

/-- A stats sample with every counter zero. -/
def zeroStats : Stats :=
  ⟨⟨⟨0, []⟩, 0, 0⟩, ⟨⟨0, []⟩, 0, 0⟩, ⟨0, 0⟩, [], [], ⟨0⟩⟩

/-- The CPU scenario of the spec: `cpuDelta = 50`, `systemDelta = 500`,
4 online CPUs. -/
def cpuSample : Stats :=
  { zeroStats with cpuStats := ⟨⟨50, []⟩, 500, 4⟩ }

/-- The memory scenario of the spec: 100 MiB used of a 2 GiB limit. -/
def memSample : Stats :=
  { zeroStats with memoryStats := ⟨104857600, 2147483648⟩ }

/-- The block-I/O scenario of the spec. -/
def blkSample : Stats :=
  { zeroStats with ioServiceBytesRecursive :=
      [⟨"Read", 1024⟩, ⟨"write", 2048⟩, ⟨"Async", 99⟩] }

/-- Two interfaces, in one order. -/
def netSampleA : Stats :=
  { zeroStats with networks := [⟨1, 2⟩, ⟨3, 4⟩] }

/-- The same two interfaces, in the other order. -/
def netSampleB : Stats :=
  { zeroStats with networks := [⟨3, 4⟩, ⟨1, 2⟩] }

/-- A lister entry in the `running` state. -/
def sampleRunning : ContainerInfo :=
  ⟨"c1", [['/', 'w', 'e', 'b']], "running", "Up 5 minutes"⟩

/-- A lister entry that is not running. -/
def sampleStopped : ContainerInfo :=
  ⟨"c2", [['/', 'd', 'b']], "exited", "Exited (0) 2 hours ago"⟩

/-- A fetch source for which every stats call fails. -/
def fetchFail : FetchSource := fun _ => none

/-- A fetch source that always succeeds with the all-zero sample. -/
def fetchZero : FetchSource := fun _ => some zeroStats

/-- A collect schedule whose every cycle succeeds with no containers. -/
def collectOkEmpty : Nat → Except String (List ContainerSnapshot) :=
  fun _ => .ok []

/-- A collect schedule whose every cycle fails. -/
def collectBoom : Nat → Except String (List ContainerSnapshot) :=
  fun _ => .error ("boom")

/-- A select schedule on which cancellation is already pending at the
first wait. -/
def selCancel : Nat → SelectOutcome := fun _ => .cancel

/-! ### Helper lemmas -/

lemma netStep_foldl (l : List NetworkStats) (a b : Nat) :
    l.foldl netStep (a % u64Mod, b % u64Mod)
      = ((a + rxSum l) % u64Mod, (b + txSum l) % u64Mod) := by
  induction l generalizing a b with
  | nil => simp [rxSum, txSum]
  | cons nw l ih =>
      simp only [List.foldl_cons, netStep, u64add, Nat.mod_add_mod]
      rw [ih]
      simp [rxSum, txSum, Nat.add_assoc]

lemma computeNetwork_eq (s : Stats) :
    computeNetwork s = (rxSum s.networks % u64Mod, txSum s.networks % u64Mod) := by
  have h := netStep_foldl s.networks 0 0
  simpa [computeNetwork] using h

lemma blkStep_foldl (l : List BlkioStatEntry) (a b : Nat) :
    l.foldl blkStep (a % u64Mod, b % u64Mod)
      = ((a + readSum l) % u64Mod, (b + writeSum l) % u64Mod) := by
  induction l generalizing a b with
  | nil => simp [readSum, writeSum, readEntries, writeEntries]
  | cons e l ih =>
      by_cases hr : strToLower e.op = "read"
      · simp only [List.foldl_cons, blkStep, hr, if_pos, u64add, Nat.mod_add_mod]
        rw [ih]
        simp [readSum, writeSum, readEntries, writeEntries, List.filter_cons, hr,
          Nat.add_assoc]
      · by_cases hw : strToLower e.op = "write"
        · simp only [List.foldl_cons, blkStep, hw, u64add, Nat.mod_add_mod]
          rw [if_neg (by decide : ¬("write" : String) = "read")]
          simp only [if_true]
          rw [ih]
          simp [readSum, writeSum, readEntries, writeEntries, List.filter_cons, hr, hw,
            Nat.add_assoc]
        · simp only [List.foldl_cons, blkStep]
          rw [if_neg hr, if_neg hw]
          rw [ih]
          simp [readSum, writeSum, readEntries, writeEntries, List.filter_cons, hr, hw]

lemma computeBlockIo_eq (s : Stats) :
    computeBlockIo s
      = (readSum s.ioServiceBytesRecursive % u64Mod,
         writeSum s.ioServiceBytesRecursive % u64Mod) := by
  have h := blkStep_foldl s.ioServiceBytesRecursive 0 0
  simpa [computeBlockIo] using h

/-! ### Claims -/

/-- C1: for every raw stats sample pair, if the container-CPU-time delta
or the host-system-CPU-time delta (both computed in `uint64` arithmetic,
as in the source) is non-positive, `computeCPUPercent` is 0; otherwise
it equals `(cpuDelta / systemDelta) * onlineCPUCount * 100`, where the
online-CPU count is the explicit field when positive, else the length of
the per-core breakdown when non-empty, else 1. -/
theorem computeCPUPercent_correct (s : Stats) :
    (cpuDelta s ≤ 0 ∨ systemDelta s ≤ 0 → computeCPUPercent s = 0) ∧
    (0 < cpuDelta s → 0 < systemDelta s →
      computeCPUPercent s =
        (cpuDelta s / systemDelta s) *
          (if 0 < s.cpuStats.onlineCPUs then (s.cpuStats.onlineCPUs : ℚ)
           else if s.cpuStats.cpuUsage.percpuUsage ≠ [] then
             (s.cpuStats.cpuUsage.percpuUsage.length : ℚ)
           else 1) * 100) := by
  constructor
  · intro h
    simp only [computeCPUPercent]
    rw [if_pos h]
  · intro h1 h2
    simp only [computeCPUPercent]
    rw [if_neg (by push_neg; exact ⟨h1, h2⟩)]
    simp [List.length_pos]

/-- Witness for C1: the spec's CPU scenario (`cpuDelta = 50`,
`systemDelta = 500`, 4 online CPUs) yields 40%. -/
theorem computeCPUPercent_correct_witness : computeCPUPercent cpuSample = 40 := by
  have h1 : (0 : ℚ) < cpuDelta cpuSample := by
    norm_num [cpuDelta, u64sub, u64Mod, cpuSample, zeroStats]
  have h2 : (0 : ℚ) < systemDelta cpuSample := by
    norm_num [systemDelta, u64sub, u64Mod, cpuSample, zeroStats]
  have h := (computeCPUPercent_correct cpuSample).2 h1 h2
  rw [h]
  norm_num [cpuDelta, systemDelta, u64sub, u64Mod, cpuSample, zeroStats]

/-- C4: memory usage and limit pass through unchanged; the percentage is
0 whenever the limit or the usage is 0, and `usage / limit * 100`
otherwise. -/
theorem computeMemory_correct (s : Stats) :
    (computeMemory s).1 = s.memoryStats.usage ∧
    (computeMemory s).2.1 = s.memoryStats.limit ∧
    (s.memoryStats.limit = 0 ∨ s.memoryStats.usage = 0 →
      (computeMemory s).2.2 = 0) ∧
    (s.memoryStats.limit ≠ 0 → s.memoryStats.usage ≠ 0 →
      (computeMemory s).2.2
        = (s.memoryStats.usage : ℚ) / (s.memoryStats.limit : ℚ) * 100) := by
  refine ⟨?_, ?_, ?_, ?_⟩
  · simp only [computeMemory]
    split <;> rfl
  · simp only [computeMemory]
    split <;> rfl
  · intro h
    simp only [computeMemory]
    rw [if_pos h]
  · intro h1 h2
    simp only [computeMemory]
    rw [if_neg (by push_neg; exact ⟨h1, h2⟩)]

/-- Witness for C4: the spec's memory scenario, 100 MiB used of a 2 GiB
limit, gives `625/128` percent (≈ 4.8828). -/
theorem computeMemory_correct_witness :
    (computeMemory memSample).2.2 = 625 / 128 := by
  have h := (computeMemory_correct memSample).2.2.2 (by decide) (by decide)
  rw [h]
  norm_num [memSample, zeroStats]

/-- C5: `computeBlockIO` partitions the block-I/O entries by
case-insensitive operation label, sums each partition (in `uint64`
arithmetic) and ignores every other label; on the spec's example the
buckets are 1024 and 2048 and the `Async` entry counts toward
neither. -/
theorem computeBlockIo_partitions :
    (∀ s : Stats,
      computeBlockIo s
        = (readSum s.ioServiceBytesRecursive % u64Mod,
           writeSum s.ioServiceBytesRecursive % u64Mod)) ∧
    computeBlockIo blkSample = (1024, 2048) := by
  constructor
  · exact computeBlockIo_eq
  · rw [computeBlockIo_eq]
    decide

/-- C6: the aggregated network and block-I/O byte totals are invariant
under permutation of the interface/entry lists, and a container with no
network interfaces reports `rx = 0` and `tx = 0`. -/
theorem aggregation_order_independent (s t : Stats) :
    (s.networks.Perm t.networks → computeNetwork s = computeNetwork t) ∧
    (s.ioServiceBytesRecursive.Perm t.ioServiceBytesRecursive →
      computeBlockIo s = computeBlockIo t) ∧
    (s.networks = [] → computeNetwork s = (0, 0)) := by
  refine ⟨?_, ?_, ?_⟩
  · intro h
    rw [computeNetwork_eq, computeNetwork_eq]
    rw [rxSum, rxSum, txSum, txSum,
      (h.map NetworkStats.rxBytes).sum_eq, (h.map NetworkStats.txBytes).sum_eq]
  · intro h
    rw [computeBlockIo_eq, computeBlockIo_eq]
    have hread := ((h.filter (fun e => strToLower e.op == "read")).map
      BlkioStatEntry.value).sum_eq
    have hwrite := ((h.filter (fun e => strToLower e.op == "write")).map
      BlkioStatEntry.value).sum_eq
    rw [readSum, readSum, writeSum, writeSum, readEntries, readEntries,
      writeEntries, writeEntries, hread, hwrite]
  · intro h
    simp [computeNetwork, h]

/-- Witness for C6: the two-interface sample and its permutation produce
identical totals, and the interface-free sample reports zero. -/
theorem aggregation_order_independent_witness :
    computeNetwork netSampleA = computeNetwork netSampleB ∧
    computeNetwork zeroStats = (0, 0) := by
  constructor
  · exact (aggregation_order_independent netSampleA netSampleB).1 (by decide)
  · exact (aggregation_order_independent zeroStats zeroStats).2.2 rfl

/-- C2: on a successful listing of `N` containers, `collectSnapshots`
returns exactly `N` snapshots in the lister's order, slot `i` holding
the snapshot assembled from container `i`; a container that is not
`running` is never handed to the fetch source (its slot equals the
pre-filled snapshot for every fetch source) and keeps all-zero metrics
with the lister-derived status. -/
theorem collectSnapshots_order (cs : List ContainerInfo) (f g : FetchSource) :
    collectSnapshots (.ok cs) f = .ok (cs.map (assembleSlot f)) ∧
    (cs.map (assembleSlot f)).length = cs.length ∧
    (∀ i (h : i < cs.length),
      (cs.map (assembleSlot f)).get ⟨i, by simpa using h⟩
        = assembleSlot f (cs.get ⟨i, h⟩)) ∧
    (∀ c : ContainerInfo, c.state ≠ "running" →
      assembleSlot f c = initialSnapshot c ∧
      assembleSlot f c = assembleSlot g c ∧
      (assembleSlot f c).cpuPercent = 0 ∧
      (assembleSlot f c).memUsage = 0 ∧
      (assembleSlot f c).memLimit = 0 ∧
      (assembleSlot f c).memPercent = 0 ∧
      (assembleSlot f c).netRx = 0 ∧
      (assembleSlot f c).netTx = 0 ∧
      (assembleSlot f c).blockRead = 0 ∧
      (assembleSlot f c).blockWrite = 0 ∧
      (assembleSlot f c).pids = 0 ∧
      (assembleSlot f c).status = deriveStatus c.state c.status) := by
  refine ⟨rfl, by simp, ?_, ?_⟩
  · intro i h
    simp
  · intro c hc
    have hslot : assembleSlot f c = initialSnapshot c := by
      simp [assembleSlot, hc]
    have hslot2 : assembleSlot g c = initialSnapshot c := by
      simp [assembleSlot, hc]
    rw [hslot, hslot2]
    simp [initialSnapshot]

/-- Witness for C2: on a two-container listing, the stopped container's
slot (index 1) is the pre-filled snapshot even under a fetch source that
always fails. -/
theorem collectSnapshots_order_witness :
    (List.map (assembleSlot fetchFail) [sampleRunning, sampleStopped]).get
        ⟨1, by decide⟩
      = assembleSlot fetchFail sampleStopped ∧
    assembleSlot fetchFail sampleStopped = initialSnapshot sampleStopped := by
  constructor
  · exact
      (collectSnapshots_order [sampleRunning, sampleStopped] fetchFail fetchZero).2.2.1
        1 (by decide)
  · exact
      ((collectSnapshots_order [sampleRunning, sampleStopped] fetchFail
        fetchZero).2.2.2 sampleStopped (by decide)).1

/-- C3: `collectSnapshots` fails exactly when the lister fails; a
running container whose fetch fails gets only its own slot affected:
status forced to `ERROR` with every metric field left at its zero
value, while the batch still succeeds slot-wise. -/
theorem collectSnapshots_error_isolation (e : String) (cs : List ContainerInfo)
    (f : FetchSource) (c : ContainerInfo) :
    collectSnapshots (.error e) f = .error e ∧
    collectSnapshots (.ok cs) f = .ok (cs.map (assembleSlot f)) ∧
    (c.state = "running" → f c.id = none →
      assembleSlot f c = { initialSnapshot c with status := "ERROR" }) := by
  refine ⟨rfl, rfl, ?_⟩
  intro h1 h2
  have hid : (initialSnapshot c).id = c.id := rfl
  simp [assembleSlot, h1, fetchWorker, hid, h2]

/-- Witness for C3: with a fetch source that always fails, the running
sample's slot is the zero-metrics snapshot with status `ERROR`, and a
lister error propagates. -/
theorem collectSnapshots_error_isolation_witness :
    collectSnapshots (.error ("daemon unreachable")) fetchFail
      = .error ("daemon unreachable") ∧
    assembleSlot fetchFail sampleRunning
      = { initialSnapshot sampleRunning with status := "ERROR" } := by
  constructor
  · exact
      (collectSnapshots_error_isolation ("daemon unreachable") [] fetchFail
        sampleRunning).1
  · exact
      (collectSnapshots_error_isolation ("daemon unreachable") [] fetchFail
        sampleRunning).2.2 rfl rfl

/-- C9: for a running container whose fetch succeeded, the snapshot's
status is the lister's human status string when non-empty, else the
lifecycle-state token when non-empty, else empty. -/
theorem snapshot_status_success (c : ContainerInfo) (f : FetchSource) (sj : Stats)
    (h1 : c.state = "running") (h2 : f c.id = some sj) :
    (assembleSlot f c).status =
      (if c.status ≠ "" then c.status
       else if c.state ≠ "" then c.state else "") := by
  have hid : (initialSnapshot c).id = c.id := rfl
  simp only [assembleSlot, h1, if_pos, fetchWorker, hid, h2]
  have hstat : (initialSnapshot c).status = deriveStatus c.state c.status := rfl
  simp [populateStats, hstat, deriveStatus]
  simp [h1]

/-- Witness for C9: the running sample under an always-succeeding fetch
keeps its human status string. -/
theorem snapshot_status_success_witness :
    (assembleSlot fetchZero sampleRunning).status = "Up 5 minutes" := by
  have h := snapshot_status_success sampleRunning fetchZero zeroStats rfl rfl
  rw [h]
  decide

/-- C7: every state of the counting admission gate reachable during a
batch over `N` running containers holds at most `concurrencyBound N`
in-flight fetches, and that bound is `min 16 N` (hence never above
16). -/
theorem semaphore_ceiling (N n : Nat) (h : SemReachable (concurrencyBound N) n) :
    n ≤ concurrencyBound N ∧ concurrencyBound N = min 16 N ∧
      concurrencyBound N ≤ 16 := by
  refine ⟨?_, ?_, ?_⟩
  · induction h with
    | refl => exact Nat.zero_le _
    | tail hr step ih =>
        cases step with
        | acquire m hm => omega
        | release m hm => omega
  · rw [concurrencyBound, Nat.min_def]
    split <;> split <;> omega
  · rw [concurrencyBound]
    split <;> omega

/-- Witness for C7: with 20 running containers one acquisition is
admitted and the bound is `min 16 20 = 16`. -/
theorem semaphore_ceiling_witness :
    1 ≤ concurrencyBound 20 ∧ concurrencyBound 20 = min 16 20 ∧
      concurrencyBound 20 ≤ 16 :=
  semaphore_ceiling 20 1
    (Relation.ReflTransGen.single (SemStep.acquire 0 (by decide)))

/-- Loop lemma for the watch loop: if the first `k` cycles succeed and
tick, and cycle `k` fails, any observation window longer than `k`
cycles ends in that cycle's failure. -/
lemma watchContainers_fails_at
    (collect : Nat → Except String (List ContainerSnapshot))
    (sel : Nat → SelectOutcome) (e : String) :
    ∀ k i fuel,
      (∀ j, j < k → sel (i + j) = .tick ∧ ∃ s, collect (i + j) = .ok s) →
      collect (i + k) = .error e → k < fuel →
      watchContainers collect sel i fuel = .failed e := by
  intro k
  induction k with
  | zero =>
      intro i fuel _ herr hfuel
      match fuel, hfuel with
      | fuel + 1, _ =>
          simp only [watchContainers]
          rw [show i + 0 = i from rfl] at herr
          rw [herr]
  | succ k ih =>
      intro i fuel hpre herr hfuel
      match fuel, hfuel with
      | fuel + 1, hfuel =>
          obtain ⟨htick, s, hok⟩ := hpre 0 (Nat.succ_pos k)
          simp only [watchContainers]
          rw [show i + 0 = i from rfl] at htick hok
          rw [hok, htick]
          refine ih (i + 1) fuel ?_ ?_ (by omega)
          · intro j hj
            have := hpre (j + 1) (by omega)
            rwa [show i + (j + 1) = i + 1 + j by omega] at this
          · rwa [show i + 1 + k = i + (k + 1) by omega]

/-- C8: if cancellation is pending at the first select, the watch loop
runs at most the one in-flight cycle and stops without error for every
observation window; and when cycle `k` is the first to fail (all
earlier cycles succeeded and ticked), the loop surfaces that error and
terminates. -/
theorem watchContainers_cancellation
    (collect : Nat → Except String (List ContainerSnapshot))
    (sel : Nat → SelectOutcome) :
    (sel 0 = .cancel → (∃ s, collect 0 = .ok s) →
      ∀ fuel, watchContainers collect sel 0 (fuel + 1) = .stopped) ∧
    (∀ k e, (∀ j, j < k → sel j = .tick ∧ ∃ s, collect j = .ok s) →
      collect k = .error e → ∀ fuel, k < fuel →
      watchContainers collect sel 0 fuel = .failed e) := by
  constructor
  · rintro hsel ⟨s, hok⟩ fuel
    simp only [watchContainers]
    rw [hok, hsel]
  · intro k e hpre herr fuel hfuel
    refine watchContainers_fails_at collect sel e k 0 fuel ?_ ?_ hfuel
    · intro j hj
      simpa using hpre j hj
    · simpa using herr

/-- Witness for C8: with cancellation already pending, one successful
cycle then a graceful stop; with a failing collector, the first cycle's
error surfaces. -/
theorem watchContainers_cancellation_witness :
    watchContainers collectOkEmpty selCancel 0 5 = .stopped ∧
    watchContainers collectBoom selCancel 0 5 = .failed ("boom") := by
  constructor
  · exact
      (watchContainers_cancellation collectOkEmpty selCancel).1 rfl ⟨[], rfl⟩ 4
  · exact
      (watchContainers_cancellation collectBoom selCancel).2 0 ("boom")
        (fun j hj => absurd hj (Nat.not_lt_zero j)) rfl 5 (by omega)

/-- C10: the displayed name comes only from the head of the lister's
name list: the empty list gives the empty name, later entries are never
consulted, and exactly one leading slash is stripped when present. -/
theorem deriveName_head_only (n : List Char) (rest rest2 : List (List Char)) :
    deriveName [] = [] ∧
    deriveName (n :: rest) = deriveName (n :: rest2) ∧
    (∀ m, n = '/' :: m → deriveName (n :: rest) = m) ∧
    ((∀ m, n ≠ '/' :: m) → deriveName (n :: rest) = n) := by
  refine ⟨rfl, rfl, ?_, ?_⟩
  · rintro m rfl
    simp [deriveName, trimSlash]
  · intro h
    cases n with
    | nil => rfl
    | cons ch tl =>
        have hc : ch ≠ '/' := fun hch => h tl (by rw [hch])
        simp [deriveName, trimSlash, hc]

/-- Witness for C10: `//cache` loses exactly its first slash, keeping
the second. -/
theorem deriveName_head_only_witness :
    deriveName [['/', '/', 'c']] = ['/', 'c'] :=
  (deriveName_head_only ['/', '/', 'c'] [] []).2.2.1 ['/', 'c'] rfl

end Whale
